import Mathlib

/-
Verification of the quiz-battle match orchestration engine.

The definitions below are a shallow embedding of the TypeScript source:
- packages/shared/src/utils.ts            (calculatePoints, isValidAnswerIndex)
- packages/game-engine/src/game-manager.ts (GameManager: startGame, startQuestion,
                                            submitAnswer, endQuestion, endGame,
                                            syncGameState)
- apps/api/src/socket/handlers.ts          (player-join-matchmaking handler)
- packages/database (DatabaseGameRepository, DatabaseQuestionRepository,
                     DatabaseAnswerRepository, DatabaseThemeRepository)

JavaScript numbers that only ever hold integers are modelled as Int; the one
genuinely fractional computation (Math.round(remainingTimeMs * 0.8)) is
modelled over ℚ with JavaScript's round-half-up semantics.  Async methods are
modelled as atomic state transformers (single-threaded event-loop execution);
the work deferred with setTimeout (delayed startQuestion, delayed startGame)
is modelled as a separate operation rather than inlined, and pending timer
handles are modelled as Booleans.
-/

namespace QuizBattle

/-! ## Constants (packages/shared/src/types.ts) -/

def MAX_POINTS_PER_QUESTION : Int := 1000

def TIME_BONUS_MULTIPLIER : ℚ := 0.8

def QUESTION_TIME_LIMIT : Int := 10000

def QUESTIONS_PER_GAME : Nat := 5

/-! ## Pure utilities (packages/shared/src/utils.ts) -/

/-- JavaScript's Math.round: round half toward positive infinity. -/
def jsRound (q : ℚ) : Int := ⌊q + 1 / 2⌋

/-- utils.ts calculatePoints: points for a correct answer from response time. -/
def calculatePoints (responseTimeMs : Int) : Int :=
  if QUESTION_TIME_LIMIT ≤ responseTimeMs then 0
  else
    let remainingTimeMs : Int := QUESTION_TIME_LIMIT - responseTimeMs
    let timeBonus : Int := jsRound ((remainingTimeMs : ℚ) * TIME_BONUS_MULTIPLIER)
    let basePoints : Int := MAX_POINTS_PER_QUESTION - timeBonus
    max (basePoints + timeBonus) 0

/-- utils.ts isValidAnswerIndex: integer in [0, 3].  The model's argument is
already an integer, so Number.isInteger is implicit. -/
def isValidAnswerIndex (index : Int) : Bool :=
  decide (0 ≤ index) && decide (index ≤ 3)

/-! ## Data model -/

inductive GameStatus where
  | waiting
  | active
  | completed
  | cancelled
deriving DecidableEq, Repr

structure Game where
  id : String
  player1Id : String
  player2Id : Option String := none
  themeId : Option String := none
  status : GameStatus
  winnerId : Option String := none
  player1Score : Int := 0
  player2Score : Int := 0
  currentQuestionIndex : Nat := 0
  createdAt : Int := 0
deriving DecidableEq, Repr

structure Question where
  id : String
  themeId : String
  correctAnswer : Int
  createdAt : Int := 0
deriving DecidableEq, Repr

structure Theme where
  id : String
  isActive : Bool
deriving DecidableEq, Repr

structure Answer where
  id : String
  gameId : String
  playerId : String
  questionId : String
  selectedAnswer : Int
  isCorrect : Bool
  responseTimeMs : Int
deriving DecidableEq, Repr

/-- Runtime-only per-match session (game-manager.ts GameSession).  The two
timer handles are modelled as "a timer is pending" flags. -/
structure GameSession where
  game : Game
  questions : List Question
  currentQuestionStartTime : Int
  questionTimer : Bool := false
  countdownInterval : Bool := false
  playersAnswered : List String := []
  answers : List (String × Int × Int) := []
deriving DecidableEq, Repr

/-- Outbound socket events (payloads reduced to the fields the spec talks
about). -/
inductive Event where
  | gameStarted (gameId : String) (game : Game)
  | questionStarted (gameId : String) (questionIndex : Nat)
  | opponentAnswered (gameId : String) (playerId : String)
  | questionTimeout (gameId : String) (correctAnswer : Int)
      (player1Score player2Score : Int)
  | gameCompleted (gameId : String) (game : Game) (winner : Option String)
  | gameStateSync (gameId : String) (timeRemaining : Int)
  | playerJoinGame (gameId : String) (playerId : String)
  | errorEvent (code : String)
deriving DecidableEq, Repr

/-- The orchestrator's in-memory session registry together with the persisted
tables it reads and writes, and the log of emitted socket events. -/
structure ManagerState where
  sessions : List (String × GameSession) := []
  dbGames : List Game := []
  dbAnswers : List Answer := []
  dbQuestions : List Question := []
  dbThemes : List Theme := []
  events : List Event := []
deriving DecidableEq, Repr

/-! ## Session registry primitives (Map.get / Map.set / Map.delete) -/

def lookupSession (st : ManagerState) (gid : String) : Option GameSession :=
  (st.sessions.find? (fun p => p.1 == gid)).map (·.2)

def setSession (st : ManagerState) (gid : String) (s : GameSession) : ManagerState :=
  { st with sessions := (gid, s) :: st.sessions.filter (fun p => !(p.1 == gid)) }

def removeSession (st : ManagerState) (gid : String) : ManagerState :=
  { st with sessions := st.sessions.filter (fun p => !(p.1 == gid)) }

def emit (st : ManagerState) (e : Event) : ManagerState :=
  { st with events := st.events ++ [e] }

/-! ## Persistence layer (packages/database repositories) -/

def getGameById (db : List Game) (gid : String) : Option Game :=
  db.find? (fun g => g.id == gid)

/-- drizzle `update(games).set(f).where(eq(games.id, gid))`: rewrite the row
with the given field changes. -/
def updateGameIn (db : List Game) (gid : String) (f : Game → Game) : List Game :=
  db.map (fun g => if g.id == gid then f g else g)

/-- DatabaseGameRepository.createGame: insert with status waiting, zero
scores, question index 0. -/
def createGame (db : List Game) (id p1 theme : String) (now : Int) : List Game :=
  { id := id, player1Id := p1, player2Id := none, themeId := some theme,
    status := GameStatus.waiting, winnerId := none, player1Score := 0,
    player2Score := 0, currentQuestionIndex := 0, createdAt := now } :: db

/-- ORDER BY created_at DESC. -/
def createdLater (a b : Question) : Prop := b.createdAt ≤ a.createdAt

instance : DecidableRel createdLater := fun a b =>
  inferInstanceAs (Decidable (b.createdAt ≤ a.createdAt))

instance : IsTotal Question createdLater :=
  ⟨fun a b => (le_total b.createdAt a.createdAt).imp id id⟩

instance : IsTrans Question createdLater :=
  ⟨fun _ _ _ hab hbc => le_trans hbc hab⟩

/-- DatabaseQuestionRepository.getRandomQuestionsByTheme: despite the name,
`SELECT ... WHERE theme_id = ? ORDER BY created_at DESC LIMIT ?` — a
deterministic query, no randomization. -/
def getRandomQuestionsByTheme (db : List Question) (themeId : String) (lim : Nat) :
    List Question :=
  (((db.filter (fun q => q.themeId == themeId)).insertionSort createdLater).take lim)

def gameCreatedLater (a b : Game) : Prop := b.createdAt ≤ a.createdAt

instance : DecidableRel gameCreatedLater := fun a b =>
  inferInstanceAs (Decidable (b.createdAt ≤ a.createdAt))

/-- DatabaseGameRepository.findWaitingGameByTheme:
`WHERE theme_id = ? AND status = 'waiting' ORDER BY created_at DESC LIMIT 1`. -/
def findWaitingGameByTheme (db : List Game) (themeId : String) : Option Game :=
  ((db.filter (fun g =>
      g.themeId == some themeId && g.status == GameStatus.waiting)).insertionSort
      gameCreatedLater).head?

def getThemeById (db : List Theme) (id : String) : Option Theme :=
  db.find? (fun t => t.id == id)

/-- JavaScript truthiness of an optional string field (`!game.themeId`):
absent and empty string are both falsy. -/
def strTruthy : Option String → Bool
  | none => false
  | some s => !(s == "")

/-! ## GameManager (packages/game-engine/src/game-manager.ts) -/

/-- game-manager.ts startQuestion: reset per-question bookkeeping, emit
question-started, arm the countdown interval and the deadline timer.  (The
countdown ticks and the deadline firing are separate operations.) -/
def startQuestion (now : Int) (st : ManagerState) (gid : String)
    (questionIndex : Nat) : ManagerState :=
  match lookupSession st gid with
  | none => st
  | some session =>
    if session.questions.length ≤ questionIndex then st
    else
      let session := { session with
        currentQuestionStartTime := now,
        playersAnswered := [],
        answers := [],
        countdownInterval := true,
        questionTimer := true }
      emit (setSession st gid session) (Event.questionStarted gid questionIndex)

/-- game-manager.ts endGame lines 240-245: strictly higher score wins,
`player2Id || null` when participant 2 wins, null on a tie. -/
def determineWinner (game : Game) : Option String :=
  if game.player2Score < game.player1Score then some game.player1Id
  else if game.player1Score < game.player2Score then
    match game.player2Id with
    | some p2 => some p2
    | none => none
  else none

/-- game-manager.ts endGame: persist final status/winner/scores, emit
game-completed, drop the session, then delete the match's answers and the
match row itself.  `winnerId: winnerId || undefined` makes drizzle skip the
winner column on a draw, so the row keeps its previous winnerId for the
instant before it is deleted. -/
def endGame (st : ManagerState) (gid : String) : ManagerState :=
  match lookupSession st gid with
  | none => st
  | some session =>
    let winnerId := determineWinner session.game
    let st := { st with dbGames := updateGameIn st.dbGames gid (fun g =>
      { g with status := GameStatus.completed,
               winnerId := match winnerId with
                 | some w => some w
                 | none => g.winnerId,
               player1Score := session.game.player1Score,
               player2Score := session.game.player2Score }) }
    let st := emit st (Event.gameCompleted gid session.game winnerId)
    let st := removeSession st gid
    let st := { st with dbAnswers := st.dbAnswers.filter (fun a => !(a.gameId == gid)) }
    { st with dbGames := st.dbGames.filter (fun g => !(g.id == gid)) }

/-- game-manager.ts endQuestion: clear both timers, emit question-timeout
with the correct answer and current scores, increment the question index, and
either end the game (index ≥ N) or leave the next question to the deferred
startQuestion.  The only guard is session existence — there is no
"already ended" flag.  When the question list has no entry at the current
index the TypeScript throws a TypeError reading `.correctAnswer` after the
timers were cleared; that path stops there. -/
def endQuestion (st : ManagerState) (gid : String) : ManagerState :=
  match lookupSession st gid with
  | none => st
  | some session =>
    let session := { session with questionTimer := false, countdownInterval := false }
    match session.questions.get? session.game.currentQuestionIndex with
    | none => setSession st gid session
    | some currentQuestion =>
      let st := setSession st gid session
      let st := emit st (Event.questionTimeout gid currentQuestion.correctAnswer
        session.game.player1Score session.game.player2Score)
      let session := { session with game := { session.game with
        currentQuestionIndex := session.game.currentQuestionIndex + 1 } }
      let st := setSession st gid session
      if QUESTIONS_PER_GAME ≤ session.game.currentQuestionIndex then endGame st gid
      else st

/-- game-manager.ts line 150: points for a submission. -/
def pointsFor (isCorrect : Bool) (responseTimeMs : Int) : Int :=
  if isCorrect then calculatePoints responseTimeMs else 0

/-- game-manager.ts lines 170-174: add the points to the matching
participant's running score; a submission from any other id changes neither
score. -/
def applyScore (session : GameSession) (pid : String) (points : Int) :
    GameSession :=
  if pid == session.game.player1Id then
    { session with game := { session.game with
      player1Score := session.game.player1Score + points } }
  else if some pid == session.game.player2Id then
    { session with game := { session.game with
      player2Score := session.game.player2Score + points } }
  else session

/-- game-manager.ts submitAnswer.  Returns the TypeScript boolean result
together with the post-state.  The `session.questions[idx]` lookup throws a
TypeError when out of range — before any mutation — surfaced as failure. -/
def submitAnswer (now : Int) (st : ManagerState) (gid pid : String)
    (selectedAnswer : Int) : Bool × ManagerState :=
  match lookupSession st gid with
  | none => (false, st)
  | some session =>
    if session.playersAnswered.contains pid || !isValidAnswerIndex selectedAnswer then
      (false, st)
    else
      let responseTime := now - session.currentQuestionStartTime
      match session.questions.get? session.game.currentQuestionIndex with
      | none => (false, st)
      | some currentQuestion =>
        let isCorrect := selectedAnswer == currentQuestion.correctAnswer
        let points := pointsFor isCorrect responseTime
        let session := { session with
          answers := (pid, selectedAnswer, responseTime)
            :: session.answers.filter (fun a => !(a.1 == pid)),
          playersAnswered := pid :: session.playersAnswered }
        let newAnswer : Answer := {
          id := "uuid", gameId := gid, playerId := pid,
          questionId := currentQuestion.id, selectedAnswer := selectedAnswer,
          isCorrect := isCorrect, responseTimeMs := responseTime }
        let st := { st with dbAnswers := newAnswer :: st.dbAnswers }
        let session := applyScore session pid points
        let st := setSession st gid session
        let st := { st with dbGames := updateGameIn st.dbGames gid (fun g =>
          { g with player1Score := session.game.player1Score,
                   player2Score := session.game.player2Score }) }
        let st := emit st (Event.opponentAnswered gid pid)
        let playerCount : Nat := if session.game.player2Id.isSome then 2 else 1
        if playerCount ≤ session.playersAnswered.length then (true, endQuestion st gid)
        else (true, st)

/-- game-manager.ts startGame: load the match, require a truthy theme and
second participant, load N questions (abort before any write when fewer
exist), persist status Active, create the session, emit game-started, begin
question 0. -/
def startGame (now : Int) (st : ManagerState) (gid : String) : Bool × ManagerState :=
  match getGameById st.dbGames gid with
  | none => (false, st)
  | some game =>
    if !strTruthy game.themeId || !strTruthy game.player2Id then (false, st)
    else
      match game.themeId with
      | none => (false, st)
      | some themeId =>
        let questions := getRandomQuestionsByTheme st.dbQuestions themeId QUESTIONS_PER_GAME
        if questions.length < QUESTIONS_PER_GAME then (false, st)
        else
          let st := { st with dbGames := updateGameIn st.dbGames gid (fun g =>
            { g with status := GameStatus.active }) }
          let session : GameSession := {
            game := { game with status := GameStatus.active },
            questions := questions,
            currentQuestionStartTime := now,
            playersAnswered := [],
            answers := [] }
          let st := setSession st gid session
          let st := emit st (Event.gameStarted gid session.game)
          (true, startQuestion now st gid 0)

/-- game-manager.ts syncGameState: recompute remaining time from the stored
question start time and re-emit a snapshot; a no-op without a session. -/
def syncGameState (now : Int) (st : ManagerState) (gid : String) : ManagerState :=
  match lookupSession st gid with
  | none => st
  | some session =>
    let timeElapsed := now - session.currentQuestionStartTime
    let timeRemaining := max 0 (QUESTION_TIME_LIMIT - timeElapsed)
    emit st (Event.gameStateSync gid timeRemaining)

/-! ## Matchmaking handler (apps/api/src/socket/handlers.ts) -/

/-- handlers.ts lines 103-107: the write that claims the second slot — an
unconditional `updateGame { player2Id, status: active }`, issued after the
separate `findWaitingGameByTheme` read. -/
def claimSecondSlot (st : ManagerState) (gid pid : String) : ManagerState :=
  { st with dbGames := updateGameIn st.dbGames gid (fun g =>
    { g with player2Id := some pid, status := GameStatus.active }) }

/-- handlers.ts player-join-matchmaking (after transport-level validation):
empty themeId/playerId are rejected as VALIDATION_ERROR; otherwise look up a
waiting match for the theme and either claim its second slot (startGame is
scheduled 1s later, a separate operation) or create a fresh waiting match.
No theme-store lookup happens anywhere on this path. -/
def playerJoinMatchmaking (now : Int) (st : ManagerState)
    (themeId playerId newGameId : String) : ManagerState :=
  if themeId == "" || playerId == "" then
    emit st (Event.errorEvent "VALIDATION_ERROR")
  else
    match findWaitingGameByTheme st.dbGames themeId with
    | some waitingGame =>
      if waitingGame.player1Id == playerId then
        { st with dbGames := createGame st.dbGames newGameId playerId themeId now }
      else
        emit (claimSecondSlot st waitingGame.id playerId)
          (Event.playerJoinGame waitingGame.id playerId)
    | none =>
      { st with dbGames := createGame st.dbGames newGameId playerId themeId now }

/-! ## The manager's operations as a single labelled step -/

inductive Op where
  | opStartGame (now : Int) (gid : String)
  | opStartQuestion (now : Int) (gid : String) (questionIndex : Nat)
  | opSubmitAnswer (now : Int) (gid pid : String) (selectedAnswer : Int)
  | opEndQuestion (gid : String)
  | opSyncState (now : Int) (gid : String)
deriving DecidableEq, Repr

def applyOp : Op → ManagerState → ManagerState
  | Op.opStartGame now gid, st => (startGame now st gid).2
  | Op.opStartQuestion now gid qi, st => startQuestion now st gid qi
  | Op.opSubmitAnswer now gid pid sel, st => (submitAnswer now st gid pid sel).2
  | Op.opEndQuestion gid, st => endQuestion st gid
  | Op.opSyncState now gid, st => syncGameState now st gid

/-- The current question index of a live session, if any. -/
def sessionIdx (st : ManagerState) (gid : String) : Option Nat :=
  (lookupSession st gid).map (·.game.currentQuestionIndex)

/-- The session produced by the accepted path of submitAnswer, before any
early endQuestion: answer recorded, participant marked as answered, score
applied. -/
def acceptSession (now : Int) (s : GameSession) (pid : String) (sel : Int)
    (q : Question) : GameSession :=
  applyScore { s with
    answers := (pid, sel, now - s.currentQuestionStartTime)
      :: s.answers.filter (fun a => !(a.1 == pid)),
    playersAnswered := pid :: s.playersAnswered } pid
    (pointsFor (sel == q.correctAnswer) (now - s.currentQuestionStartTime))

/-- The manager state produced by the accepted path of submitAnswer, before
any early endQuestion: answer persisted, session replaced, scores persisted,
opponent-answered emitted. -/
def acceptState (now : Int) (st : ManagerState) (gid pid : String) (sel : Int)
    (s : GameSession) (q : Question) : ManagerState :=
  emit { setSession { st with dbAnswers := {
      id := "uuid", gameId := gid, playerId := pid, questionId := q.id,
      selectedAnswer := sel, isCorrect := sel == q.correctAnswer,
      responseTimeMs := now - s.currentQuestionStartTime } :: st.dbAnswers }
      gid (acceptSession now s pid sel q) with
    dbGames := updateGameIn st.dbGames gid (fun g => { g with
      player1Score := (acceptSession now s pid sel q).game.player1Score,
      player2Score := (acceptSession now s pid sel q).game.player2Score }) }
    (Event.opponentAnswered gid pid)

/-- Every participant id the persisted match row has ever carried, across a
trace of snapshots of the games table. -/
def associatedParticipants (snapshots : List (List Game)) (gid : String) :
    List String :=
  ((snapshots.map (fun db =>
    match getGameById db gid with
    | some g => g.player1Id :: g.player2Id.toList
    | none => [])).flatten).dedup

/-! ## Concrete fixtures -/

def demoQuestions : List Question :=
  [{ id := "q4", themeId := "science", correctAnswer := 1, createdAt := 4 },
   { id := "q3", themeId := "science", correctAnswer := 0, createdAt := 3 },
   { id := "q2", themeId := "science", correctAnswer := 2, createdAt := 2 },
   { id := "q1", themeId := "science", correctAnswer := 3, createdAt := 1 },
   { id := "q0", themeId := "science", correctAnswer := 1, createdAt := 0 }]

def demoGame : Game := {
  id := "g1", player1Id := "alice", player2Id := some "bob",
  themeId := some "science", status := GameStatus.active,
  player1Score := 0, player2Score := 0, currentQuestionIndex := 0 }

def demoSession : GameSession := {
  game := demoGame, questions := demoQuestions, currentQuestionStartTime := 0,
  questionTimer := true, countdownInterval := true }

def demoState : ManagerState := {
  sessions := [("g1", demoSession)], dbGames := [demoGame],
  dbQuestions := demoQuestions, dbThemes := [{ id := "science", isActive := true }] }

/-- The demo session after participant 1 has answered the live question. -/
def demoSessionAnswered : GameSession :=
  { demoSession with
    playersAnswered := ["alice"], answers := [("alice", 1, 500)] }

/-- A state in which participant 1 has already answered the live question. -/
def demoStateAnswered : ManagerState :=
  { demoState with sessions := [("g1", demoSessionAnswered)] }

/-- A waiting match hosted by "host", not yet started. -/
def raceGame : Game := {
  id := "gr", player1Id := "host", themeId := some "science",
  status := GameStatus.waiting }

def raceState : ManagerState := {
  dbGames := [raceGame], dbQuestions := demoQuestions,
  dbThemes := [{ id := "science", isActive := true }] }

/-- A theme that exists in the theme store but is inactive, and no matches. -/
def inactiveThemeState : ManagerState :=
  { dbThemes := [{ id := "retired", isActive := false }] }

def fewGame : Game := {
  id := "gf", player1Id := "alice", player2Id := some "bob",
  themeId := some "history", status := GameStatus.waiting }

/-- Only three questions exist for the theme of this waiting-but-claimed
match, fewer than QUESTIONS_PER_GAME. -/
def fewQuestionsState : ManagerState := {
  dbGames := [fewGame],
  dbQuestions :=
    [{ id := "h0", themeId := "history", correctAnswer := 0, createdAt := 0 },
     { id := "h1", themeId := "history", correctAnswer := 1, createdAt := 1 },
     { id := "h2", themeId := "history", correctAnswer := 2, createdAt := 2 }] }

def enoughGame : Game := {
  id := "gf", player1Id := "alice", player2Id := some "bob",
  themeId := some "science", status := GameStatus.waiting }

/-- The same match with a full complement of questions for its theme. -/
def enoughQuestionsState : ManagerState :=
  { fewQuestionsState with
    dbGames := [enoughGame],
    dbQuestions := fewQuestionsState.dbQuestions ++ demoQuestions }

/-- A question store holding six questions of one theme, so that the
five-question selection must leave one out. -/
def bigStore : List Question :=
  { id := "q5", themeId := "science", correctAnswer := 0, createdAt := 5 }
    :: demoQuestions

/-- How many question-ended (question-timeout) events a log contains. -/
def countQuestionTimeouts (events : List Event) : Nat :=
  (events.filter (fun e => match e with
    | Event.questionTimeout _ _ _ _ => true
    | _ => false)).length

/-! ## Session registry lemmas -/

theorem lookupSession_emit (st : ManagerState) (e : Event) (gid : String) :
    lookupSession (emit st e) gid = lookupSession st gid := rfl

theorem lookupSession_setSession_self (st : ManagerState) (g : String)
    (s : GameSession) : lookupSession (setSession st g s) g = some s := by
  simp [lookupSession, setSession]

theorem find?_filter_ne (l : List (String × GameSession)) (g gid : String)
    (h : gid ≠ g) :
    (l.filter (fun p => !(p.1 == g))).find? (fun p => p.1 == gid) =
      l.find? (fun p => p.1 == gid) := by
  have hgg : ¬ g = gid := fun hc => h hc.symm
  induction l with
  | nil => rfl
  | cons hd tl ih =>
    by_cases hg : hd.1 = g
    · have hne : ¬ hd.1 = gid := by rw [hg]; exact hgg
      simp [List.filter_cons, List.find?_cons, hg, hne, hgg, ih]
    · by_cases hgid : hd.1 = gid
      · simp [List.filter_cons, List.find?_cons, hg, hgid, h]
      · simp [List.filter_cons, List.find?_cons, hg, hgid, ih]

theorem lookupSession_setSession_ne (st : ManagerState) (g gid : String)
    (s : GameSession) (h : gid ≠ g) :
    lookupSession (setSession st g s) gid = lookupSession st gid := by
  have hne : ¬ g = gid := fun hc => h hc.symm
  simp [lookupSession, setSession, List.find?_cons, hne,
    find?_filter_ne st.sessions g gid h]

theorem lookupSession_removeSession_self (st : ManagerState) (g : String) :
    lookupSession (removeSession st g) g = none := by
  simp only [lookupSession, removeSession]
  induction st.sessions with
  | nil => rfl
  | cons hd tl ih =>
    by_cases hg : hd.1 = g
    · rw [List.filter_cons, if_neg (by simp [hg])]
      exact ih
    · rw [List.filter_cons, if_pos (by simp [hg])]
      simp only [List.find?_cons]
      rw [show (hd.1 == g) = false by simp [hg]]
      exact ih

theorem lookupSession_removeSession_ne (st : ManagerState) (g gid : String)
    (h : gid ≠ g) :
    lookupSession (removeSession st g) gid = lookupSession st gid := by
  simp [lookupSession, removeSession, find?_filter_ne st.sessions g gid h]

/-! ## Claim theorems -/

/-- C1: For every response latency t with 0 ≤ t < QUESTION_TIME_LIMIT
(10000 ms), calculatePoints t returns exactly MAX_POINTS_PER_QUESTION (1000)
regardless of t; for every t ≥ QUESTION_TIME_LIMIT it returns 0; and in
submitAnswer an incorrect answer always contributes 0 points (pointsFor is
line 150 of game-manager.ts, used by submitAnswer).  The time bonus cancels:
basePoints + timeBonus = (MAX − bonus) + bonus = MAX. -/
theorem c1_calculatePoints_flat (t : Int) :
    (t < QUESTION_TIME_LIMIT → calculatePoints t = MAX_POINTS_PER_QUESTION) ∧
    (QUESTION_TIME_LIMIT ≤ t → calculatePoints t = 0) ∧
    pointsFor false t = 0 := by
  refine ⟨fun h => ?_, fun h => ?_, rfl⟩
  · have h2 : ¬ QUESTION_TIME_LIMIT ≤ t := not_le.mpr h
    simp only [calculatePoints]
    rw [if_neg h2]
    generalize jsRound _ = b
    have hb : MAX_POINTS_PER_QUESTION - b + b = MAX_POINTS_PER_QUESTION := by
      ring
    rw [hb, max_eq_left]
    unfold MAX_POINTS_PER_QUESTION
    norm_num
  · simp only [calculatePoints]
    rw [if_pos h]

theorem c1_calculatePoints_flat_witness :
    calculatePoints 9999 = MAX_POINTS_PER_QUESTION ∧
    calculatePoints 10000 = 0 ∧ pointsFor false 0 = 0 :=
  ⟨(c1_calculatePoints_flat 9999).1 (by decide),
   (c1_calculatePoints_flat 10000).2.1 (by decide),
   (c1_calculatePoints_flat 0).2.2⟩

/-- C2 is refuted by the code: endQuestion has no "already ended" guard (its
only check is session existence), so invoking it a second time on a live
session emits a second question-ended event and increments
currentQuestionIndex again.  Concretely, on a session at question 0 of 5: the
first call moves the index to 1 and logs one question-timeout event; the
second call moves the index to 2 and logs a second question-timeout event,
instead of being a no-op. -/
theorem c2_endQuestion_not_idempotent :
    sessionIdx (endQuestion demoState "g1") "g1" = some 1 ∧
    countQuestionTimeouts (endQuestion demoState "g1").events = 1 ∧
    sessionIdx (endQuestion (endQuestion demoState "g1") "g1") "g1" = some 2 ∧
    countQuestionTimeouts
      (endQuestion (endQuestion demoState "g1") "g1").events = 2 := by
  decide

/-- C4 is refuted by the code: the second-participant claim in the
player-join-matchmaking handler is `updateGame { player2Id, status }` issued
after a separate findWaitingGameByTheme read — an unconditional write, not an
atomic "set only if still empty" update.  Two joiners that both read the same
waiting match before either write (the interleaving the claim is about) both
succeed: the second write overwrites the already-claimed slot, and three
distinct participant ids become associated with the match over its
lifetime. -/
theorem c4_second_slot_claim_not_atomic :
    (findWaitingGameByTheme raceState.dbGames "science" = some raceGame ∧
     raceGame.player1Id ≠ "joinA" ∧ raceGame.player1Id ≠ "joinB") ∧
    ((getGameById (claimSecondSlot raceState "gr" "joinA").dbGames "gr").map
        (fun g => g.player2Id) = some (some "joinA") ∧
     (getGameById (claimSecondSlot (claimSecondSlot raceState "gr" "joinA")
        "gr" "joinB").dbGames "gr").map (fun g => g.player2Id) =
          some (some "joinB")) ∧
    associatedParticipants
      [raceState.dbGames,
       (claimSecondSlot raceState "gr" "joinA").dbGames,
       (claimSecondSlot (claimSecondSlot raceState "gr" "joinA") "gr"
         "joinB").dbGames] "gr" = ["joinA", "host", "joinB"] := by
  decide

/-- C7 is refuted by the code: the player-join-matchmaking handler never
consults the theme store, so a request for an inactive (or unknown) theme is
not rejected.  Concretely, with a theme that exists but is inactive: the
request emits no error event at all and a fresh match record is created for
that theme. -/
theorem c7_inactive_theme_not_rejected :
    getThemeById inactiveThemeState.dbThemes "retired" =
      some { id := "retired", isActive := false } ∧
    (playerJoinMatchmaking 0 inactiveThemeState "retired" "p1" "gnew").events
      = [] ∧
    (getGameById (playerJoinMatchmaking 0 inactiveThemeState "retired" "p1"
      "gnew").dbGames "gnew").isSome = true := by
  decide

theorem applyScore_playersAnswered (s : GameSession) (pid : String)
    (pts : Int) : (applyScore s pid pts).playersAnswered = s.playersAnswered := by
  unfold applyScore
  split_ifs <;> rfl

theorem applyScore_currentQuestionIndex (s : GameSession) (pid : String)
    (pts : Int) :
    (applyScore s pid pts).game.currentQuestionIndex =
      s.game.currentQuestionIndex := by
  unfold applyScore
  split_ifs <;> rfl

theorem applyScore_player2Id (s : GameSession) (pid : String) (pts : Int) :
    (applyScore s pid pts).game.player2Id = s.game.player2Id := by
  unfold applyScore
  split_ifs <;> rfl

theorem applyScore_nonparticipant (s : GameSession) (pid : String) (pts : Int)
    (h1 : pid ≠ s.game.player1Id) (h2 : s.game.player2Id ≠ some pid) :
    applyScore s pid pts = s := by
  unfold applyScore
  rw [if_neg (by simp [h1]), if_neg (by simp; exact fun hc => h2 hc.symm)]

theorem lookupSession_endGame_self (st : ManagerState) (gid : String) :
    lookupSession (endGame st gid) gid = none := by
  unfold endGame
  cases h : lookupSession st gid with
  | none => exact h
  | some s => exact lookupSession_removeSession_self _ gid

theorem lookupSession_endGame_ne (st : ManagerState) (g gid : String)
    (h : gid ≠ g) :
    lookupSession (endGame st g) gid = lookupSession st gid := by
  unfold endGame
  cases hl : lookupSession st g with
  | none => rfl
  | some s => exact lookupSession_removeSession_ne _ g gid h

theorem sessionIdx_endGame_ne (st : ManagerState) (g gid : String)
    (h : gid ≠ g) :
    sessionIdx (endGame st g) gid = sessionIdx st gid := by
  unfold sessionIdx
  rw [lookupSession_endGame_ne st g gid h]

theorem endGame_events (st : ManagerState) (gid : String) (s : GameSession)
    (h : lookupSession st gid = some s) :
    (endGame st gid).events = st.events ++
      [Event.gameCompleted gid s.game (determineWinner s.game)] := by
  unfold endGame
  rw [h]
  rfl

theorem endQuestion_noSession (st : ManagerState) (gid : String)
    (h : lookupSession st gid = none) : endQuestion st gid = st := by
  unfold endQuestion
  rw [h]

theorem endQuestion_session (st : ManagerState) (gid : String)
    (s : GameSession) (h : lookupSession st gid = some s) :
    lookupSession (endQuestion st gid) gid = none ∨
    ∃ s2, lookupSession (endQuestion st gid) gid = some s2 ∧
      s2.playersAnswered = s.playersAnswered ∧
      s2.game.player1Score = s.game.player1Score ∧
      s2.game.player2Score = s.game.player2Score ∧
      (s2.game.currentQuestionIndex = s.game.currentQuestionIndex ∨
        s2.game.currentQuestionIndex = s.game.currentQuestionIndex + 1) := by
  cases hq : s.questions.get? s.game.currentQuestionIndex with
  | none =>
    right
    simp only [endQuestion, h, hq]
    exact ⟨_, lookupSession_setSession_self st gid _, rfl, rfl, rfl, Or.inl rfl⟩
  | some q =>
    by_cases hge : QUESTIONS_PER_GAME ≤ s.game.currentQuestionIndex + 1
    · left
      simp only [endQuestion, h, hq]
      rw [if_pos hge]
      exact lookupSession_endGame_self _ gid
    · right
      simp only [endQuestion, h, hq]
      rw [if_neg hge]
      exact ⟨_, lookupSession_setSession_self _ gid _, rfl, rfl, rfl,
        Or.inr rfl⟩

theorem endQuestion_idx_succ (st : ManagerState) (gid : String)
    (s : GameSession) (q : Question) (h : lookupSession st gid = some s)
    (hq : s.questions.get? s.game.currentQuestionIndex = some q)
    (hlt : s.game.currentQuestionIndex + 1 < QUESTIONS_PER_GAME) :
    sessionIdx (endQuestion st gid) gid =
      some (s.game.currentQuestionIndex + 1) := by
  have hge : ¬ QUESTIONS_PER_GAME ≤ s.game.currentQuestionIndex + 1 := by omega
  unfold sessionIdx
  simp only [endQuestion, h, hq]
  rw [if_neg hge, lookupSession_setSession_self]
  rfl

theorem endQuestion_complete_events (st : ManagerState) (gid : String)
    (s : GameSession) (q : Question) (h : lookupSession st gid = some s)
    (hq : s.questions.get? s.game.currentQuestionIndex = some q)
    (hge : QUESTIONS_PER_GAME ≤ s.game.currentQuestionIndex + 1) :
    ∃ g2 w, (endQuestion st gid).events = st.events ++
      [Event.questionTimeout gid q.correctAnswer s.game.player1Score
        s.game.player2Score,
       Event.gameCompleted gid g2 w] ∧
      g2.currentQuestionIndex = s.game.currentQuestionIndex + 1 := by
  simp only [endQuestion, h, hq]
  rw [if_pos hge]
  refine ⟨{ s.game with
      currentQuestionIndex := s.game.currentQuestionIndex + 1 },
    determineWinner { s.game with
      currentQuestionIndex := s.game.currentQuestionIndex + 1 }, ?_, rfl⟩
  rw [endGame_events _ gid _ (lookupSession_setSession_self _ gid _)]
  simp [setSession, emit]

theorem sessionIdx_endQuestion_ne (st : ManagerState) (g gid : String)
    (h : gid ≠ g) :
    sessionIdx (endQuestion st g) gid = sessionIdx st gid := by
  cases hl : lookupSession st g with
  | none => rw [endQuestion_noSession st g hl]
  | some s =>
    cases hq : s.questions.get? s.game.currentQuestionIndex with
    | none =>
      unfold sessionIdx
      simp only [endQuestion, hl, hq]
      rw [lookupSession_setSession_ne st g gid _ h]
    | some q =>
      by_cases hge : QUESTIONS_PER_GAME ≤ s.game.currentQuestionIndex + 1
      · unfold sessionIdx
        simp only [endQuestion, hl, hq]
        rw [if_pos hge, lookupSession_endGame_ne _ g gid h,
          lookupSession_setSession_ne _ g gid _ h, lookupSession_emit,
          lookupSession_setSession_ne st g gid _ h]
      · unfold sessionIdx
        simp only [endQuestion, hl, hq]
        rw [if_neg hge, lookupSession_setSession_ne _ g gid _ h,
          lookupSession_emit, lookupSession_setSession_ne st g gid _ h]

theorem sessionIdx_endQuestion_le (st : ManagerState) (g gid : String) (j : Nat)
    (hj : sessionIdx (endQuestion st g) gid = some j) :
    ∃ i, sessionIdx st gid = some i ∧ i ≤ j := by
  by_cases hgg : gid = g
  · subst hgg
    cases h : lookupSession st gid with
    | none =>
      rw [endQuestion_noSession st gid h] at hj
      exact ⟨j, hj, le_refl j⟩
    | some s =>
      cases hq : s.questions.get? s.game.currentQuestionIndex with
      | none =>
        have heq : sessionIdx (endQuestion st gid) gid =
            some s.game.currentQuestionIndex := by
          unfold sessionIdx
          simp only [endQuestion, h, hq]
          rw [lookupSession_setSession_self]
          rfl
        rw [heq] at hj
        refine ⟨s.game.currentQuestionIndex, ?_, ?_⟩
        · unfold sessionIdx
          rw [h]
          rfl
        · have : s.game.currentQuestionIndex = j := Option.some.inj hj
          omega
      | some q =>
        by_cases hge : QUESTIONS_PER_GAME ≤ s.game.currentQuestionIndex + 1
        · exfalso
          have hnone : sessionIdx (endQuestion st gid) gid = none := by
            unfold sessionIdx
            simp only [endQuestion, h, hq]
            rw [if_pos hge, lookupSession_endGame_self]
            rfl
          rw [hnone] at hj
          exact Option.noConfusion hj
        · have hsucc := endQuestion_idx_succ st gid s q h hq (by omega)
          rw [hsucc] at hj
          refine ⟨s.game.currentQuestionIndex, ?_, ?_⟩
          · unfold sessionIdx
            rw [h]
            rfl
          · have : s.game.currentQuestionIndex + 1 = j :=
              Option.some.inj hj
            omega
  · rw [sessionIdx_endQuestion_ne st g gid hgg] at hj
    exact ⟨j, hj, le_refl j⟩

theorem applyScore_questions (s : GameSession) (pid : String) (pts : Int) :
    (applyScore s pid pts).questions = s.questions := by
  unfold applyScore
  split_ifs <;> rfl

theorem submitAnswer_noSession (now : Int) (st : ManagerState)
    (gid pid : String) (sel : Int) (h : lookupSession st gid = none) :
    submitAnswer now st gid pid sel = (false, st) := by
  unfold submitAnswer
  rw [h]

theorem submitAnswer_guard (now : Int) (st : ManagerState) (gid pid : String)
    (sel : Int) (s : GameSession) (h : lookupSession st gid = some s)
    (hcond : (s.playersAnswered.contains pid || !isValidAnswerIndex sel)
      = true) :
    submitAnswer now st gid pid sel = (false, st) := by
  simp only [submitAnswer, h]
  rw [if_pos hcond]

theorem submitAnswer_noQuestion (now : Int) (st : ManagerState)
    (gid pid : String) (sel : Int) (s : GameSession)
    (h : lookupSession st gid = some s)
    (hcond : (s.playersAnswered.contains pid || !isValidAnswerIndex sel)
      = false)
    (hq : s.questions.get? s.game.currentQuestionIndex = none) :
    submitAnswer now st gid pid sel = (false, st) := by
  simp only [submitAnswer, h, hq]
  rw [if_neg (by rw [hcond]; exact Bool.false_ne_true)]

/-- The accepted path of submitAnswer, written out once: the returned flag is
true and the post-state is the bookkeeping update followed, when everyone
expected has answered, by endQuestion. -/
theorem submitAnswer_accept_eq (now : Int) (st : ManagerState)
    (gid pid : String) (sel : Int) (s : GameSession) (q : Question)
    (h : lookupSession st gid = some s)
    (hcond : (s.playersAnswered.contains pid || !isValidAnswerIndex sel)
      = false)
    (hq : s.questions.get? s.game.currentQuestionIndex = some q) :
    submitAnswer now st gid pid sel =
      (if (if (acceptSession now s pid sel q).game.player2Id.isSome then 2
           else 1) ≤ (acceptSession now s pid sel q).playersAnswered.length
       then (true, endQuestion (acceptState now st gid pid sel s q) gid)
       else (true, acceptState now st gid pid sel s q)) := by
  simp only [submitAnswer, h, hq]
  rw [if_neg (by rw [hcond]; exact Bool.false_ne_true)]
  rfl

theorem lookupSession_sessions_eq (st1 st2 : ManagerState)
    (h : st1.sessions = st2.sessions) (gid : String) :
    lookupSession st1 gid = lookupSession st2 gid := by
  unfold lookupSession
  rw [h]

theorem lookup_accept_state (st0 : ManagerState) (g gid : String)
    (s2 : GameSession) (dbG : List Game) (e : Event) :
    lookupSession (emit { setSession st0 g s2 with dbGames := dbG } e) gid =
      lookupSession (setSession st0 g s2) gid := by
  rw [lookupSession_emit]
  exact lookupSession_sessions_eq _ _ rfl gid

theorem sessionIdx_accept_state (st0 : ManagerState) (g gid : String)
    (s2 : GameSession) (dbG : List Game) (e : Event) :
    sessionIdx (emit { setSession st0 g s2 with dbGames := dbG } e) gid =
      if gid = g then some s2.game.currentQuestionIndex
      else sessionIdx st0 gid := by
  unfold sessionIdx
  rw [lookup_accept_state]
  by_cases hgg : gid = g
  · subst hgg
    rw [lookupSession_setSession_self, if_pos rfl]
    rfl
  · rw [lookupSession_setSession_ne st0 g gid s2 hgg, if_neg hgg]

theorem endQuestion_dbAnswers_incomplete (st : ManagerState) (gid : String)
    (s : GameSession) (q : Question) (h : lookupSession st gid = some s)
    (hq : s.questions.get? s.game.currentQuestionIndex = some q)
    (hlt : s.game.currentQuestionIndex + 1 < QUESTIONS_PER_GAME) :
    (endQuestion st gid).dbAnswers = st.dbAnswers := by
  simp only [endQuestion, h, hq]
  rw [if_neg (by omega)]
  rfl

theorem acceptSession_playersAnswered (now : Int) (s : GameSession)
    (pid : String) (sel : Int) (q : Question) :
    (acceptSession now s pid sel q).playersAnswered =
      pid :: s.playersAnswered := by
  unfold acceptSession
  rw [applyScore_playersAnswered]

theorem acceptSession_questions (now : Int) (s : GameSession) (pid : String)
    (sel : Int) (q : Question) :
    (acceptSession now s pid sel q).questions = s.questions := by
  unfold acceptSession
  rw [applyScore_questions]

theorem acceptSession_idx (now : Int) (s : GameSession) (pid : String)
    (sel : Int) (q : Question) :
    (acceptSession now s pid sel q).game.currentQuestionIndex =
      s.game.currentQuestionIndex := by
  unfold acceptSession
  rw [applyScore_currentQuestionIndex]

theorem acceptSession_player2Id (now : Int) (s : GameSession) (pid : String)
    (sel : Int) (q : Question) :
    (acceptSession now s pid sel q).game.player2Id = s.game.player2Id := by
  unfold acceptSession
  rw [applyScore_player2Id]

theorem acceptSession_nonparticipant (now : Int) (s : GameSession)
    (pid : String) (sel : Int) (q : Question) (h1 : pid ≠ s.game.player1Id)
    (h2 : s.game.player2Id ≠ some pid) :
    (acceptSession now s pid sel q).game.player1Score = s.game.player1Score ∧
    (acceptSession now s pid sel q).game.player2Score = s.game.player2Score := by
  unfold acceptSession applyScore
  rw [if_neg (by simp [h1]), if_neg (by simp; exact fun hc => h2 hc.symm)]
  exact ⟨rfl, rfl⟩

theorem lookupSession_acceptState_self (now : Int) (st : ManagerState)
    (gid pid : String) (sel : Int) (s : GameSession) (q : Question) :
    lookupSession (acceptState now st gid pid sel s q) gid =
      some (acceptSession now s pid sel q) := by
  unfold acceptState
  rw [lookupSession_emit]
  exact (lookupSession_sessions_eq _ _ rfl gid).trans
    (lookupSession_setSession_self _ gid _)

theorem lookupSession_acceptState_ne (now : Int) (st : ManagerState)
    (gid pid : String) (sel : Int) (s : GameSession) (q : Question)
    (gid2 : String) (hgg : gid2 ≠ gid) :
    lookupSession (acceptState now st gid pid sel s q) gid2 =
      lookupSession st gid2 := by
  have hsess : (acceptState now st gid pid sel s q).sessions =
      (gid, acceptSession now s pid sel q) ::
        st.sessions.filter (fun p => !(p.1 == gid)) := rfl
  have hb : (gid == gid2) = false := by
    simp only [beq_eq_false_iff_ne, ne_eq]
    exact fun hc => hgg hc.symm
  unfold lookupSession
  rw [hsess]
  simp only [List.find?_cons, hb]
  rw [find?_filter_ne st.sessions gid gid2 hgg]

theorem acceptState_dbAnswers (now : Int) (st : ManagerState)
    (gid pid : String) (sel : Int) (s : GameSession) (q : Question) :
    (acceptState now st gid pid sel s q).dbAnswers = {
      id := "uuid", gameId := gid, playerId := pid, questionId := q.id,
      selectedAnswer := sel, isCorrect := sel == q.correctAnswer,
      responseTimeMs := now - s.currentQuestionStartTime } :: st.dbAnswers :=
  rfl

theorem mem_after_accept (now : Int) (st : ManagerState) (gid pid : String)
    (sel : Int) (s : GameSession) (q : Question) (s2 : GameSession)
    (hs2 : lookupSession (acceptState now st gid pid sel s q) gid = some s2) :
    pid ∈ s2.playersAnswered := by
  rw [lookupSession_acceptState_self] at hs2
  obtain rfl := Option.some.inj hs2
  rw [acceptSession_playersAnswered]
  exact List.mem_cons_self pid _

theorem mem_after_accept_endQuestion (now : Int) (st : ManagerState)
    (gid pid : String) (sel : Int) (s : GameSession) (q : Question)
    (s2 : GameSession)
    (hs2 : lookupSession (endQuestion (acceptState now st gid pid sel s q) gid)
      gid = some s2) :
    pid ∈ s2.playersAnswered := by
  rcases endQuestion_session _ gid _
      (lookupSession_acceptState_self now st gid pid sel s q) with
    hnone | ⟨s3, hs3, hans, _, _, _⟩
  · rw [hnone] at hs2
    exact Option.noConfusion hs2
  · rw [hs3] at hs2
    obtain rfl : s3 = s2 := Option.some.inj hs2
    rw [hans, acceptSession_playersAnswered]
    exact List.mem_cons_self pid _

theorem sessionIdx_acceptState (now : Int) (st : ManagerState)
    (g pid : String) (sel : Int) (s : GameSession) (q : Question)
    (gid : String) (k : Nat) (h : lookupSession st g = some s)
    (hk : sessionIdx (acceptState now st g pid sel s q) gid = some k) :
    ∃ i, sessionIdx st gid = some i ∧ i ≤ k := by
  by_cases hgg : gid = g
  · subst hgg
    unfold sessionIdx at hk
    rw [lookupSession_acceptState_self] at hk
    replace hk : some ((acceptSession now s pid sel
      q).game.currentQuestionIndex) = some k := hk
    have hk2 := Option.some.inj hk
    refine ⟨s.game.currentQuestionIndex, ?_, ?_⟩
    · unfold sessionIdx
      rw [h]
      rfl
    · rw [← hk2, acceptSession_idx]
  · refine ⟨k, ?_, le_refl k⟩
    unfold sessionIdx at hk ⊢
    rw [lookupSession_acceptState_ne now st g pid sel s q gid hgg] at hk
    exact hk

theorem submitAnswer_true_mem (now : Int) (st : ManagerState)
    (gid pid : String) (sel : Int)
    (hsucc : (submitAnswer now st gid pid sel).1 = true) :
    ∀ s2, lookupSession (submitAnswer now st gid pid sel).2 gid = some s2 →
      pid ∈ s2.playersAnswered := by
  intro s2 hs2
  cases h : lookupSession st gid with
  | none =>
    rw [submitAnswer_noSession now st gid pid sel h] at hsucc
    simp at hsucc
  | some s =>
    cases hcond : s.playersAnswered.contains pid || !isValidAnswerIndex sel with
    | true =>
      rw [submitAnswer_guard now st gid pid sel s h hcond] at hsucc
      simp at hsucc
    | false =>
      cases hq : s.questions.get? s.game.currentQuestionIndex with
      | none =>
        rw [submitAnswer_noQuestion now st gid pid sel s h hcond hq] at hsucc
        simp at hsucc
      | some q =>
        rw [submitAnswer_accept_eq now st gid pid sel s q h hcond hq] at hs2
        split at hs2 <;> split at hs2 <;>
          first
          | exact mem_after_accept_endQuestion now st gid pid sel s q s2 hs2
          | exact mem_after_accept now st gid pid sel s q s2 hs2

theorem sessionIdx_submitAnswer_le (now : Int) (st : ManagerState)
    (g pid : String) (sel : Int) (gid : String) (j : Nat)
    (hj : sessionIdx (submitAnswer now st g pid sel).2 gid = some j) :
    ∃ i, sessionIdx st gid = some i ∧ i ≤ j := by
  cases h : lookupSession st g with
  | none =>
    rw [submitAnswer_noSession now st g pid sel h] at hj
    exact ⟨j, hj, le_refl j⟩
  | some s =>
    cases hcond : s.playersAnswered.contains pid || !isValidAnswerIndex sel with
    | true =>
      rw [submitAnswer_guard now st g pid sel s h hcond] at hj
      exact ⟨j, hj, le_refl j⟩
    | false =>
      cases hq : s.questions.get? s.game.currentQuestionIndex with
      | none =>
        rw [submitAnswer_noQuestion now st g pid sel s h hcond hq] at hj
        exact ⟨j, hj, le_refl j⟩
      | some q =>
        rw [submitAnswer_accept_eq now st g pid sel s q h hcond hq] at hj
        split at hj <;> split at hj
        all_goals
          try exact sessionIdx_acceptState now st g pid sel s q gid j h hj
        all_goals
          obtain ⟨i0, hi0, hle⟩ := sessionIdx_endQuestion_le _ g gid j hj
        all_goals
          obtain ⟨i, hi, hle2⟩ :=
            sessionIdx_acceptState now st g pid sel s q gid i0 h hi0
        all_goals
          exact ⟨i, hi, le_trans hle2 hle⟩

theorem sessionIdx_startQuestion (now : Int) (st : ManagerState)
    (g : String) (qi : Nat) (gid : String) :
    sessionIdx (startQuestion now st g qi) gid = sessionIdx st gid := by
  cases h : lookupSession st g with
  | none =>
    rw [show startQuestion now st g qi = st from by
      unfold startQuestion; rw [h]]
  | some s =>
    by_cases hlen : s.questions.length ≤ qi
    · simp only [startQuestion, h]
      rw [if_pos hlen]
    · simp only [startQuestion, h]
      rw [if_neg hlen]
      unfold sessionIdx
      rw [lookupSession_emit]
      by_cases hgg : gid = g
      · subst hgg
        rw [lookupSession_setSession_self, h]
        rfl
      · rw [lookupSession_setSession_ne st g gid _ hgg]

theorem sessionIdx_syncGameState (now : Int) (st : ManagerState)
    (g gid : String) :
    sessionIdx (syncGameState now st g) gid = sessionIdx st gid := by
  cases h : lookupSession st g with
  | none =>
    rw [show syncGameState now st g = st from by
      unfold syncGameState; rw [h]]
  | some s =>
    simp only [syncGameState, h]
    rfl

theorem sessionIdx_startGame_ne (now : Int) (st : ManagerState)
    (g gid : String) (hgg : gid ≠ g) :
    sessionIdx (startGame now st g).2 gid = sessionIdx st gid := by
  cases hg : getGameById st.dbGames g with
  | none =>
    rw [show (startGame now st g).2 = st from by
      unfold startGame; rw [hg]]
  | some game =>
    by_cases htr : (!strTruthy game.themeId || !strTruthy game.player2Id)
      = true
    · simp only [startGame, hg]
      rw [if_pos htr]
    · simp only [startGame, hg]
      rw [if_neg htr]
      cases ht : game.themeId with
      | none => rfl
      | some theme =>
        by_cases hlen : (getRandomQuestionsByTheme st.dbQuestions theme
            QUESTIONS_PER_GAME).length < QUESTIONS_PER_GAME
        · simp only []
          rw [if_pos hlen]
        · simp only []
          rw [if_neg hlen]
          have hsnd : ∀ (b : Bool) (y : ManagerState),
              ((b, y) : Bool × ManagerState).2 = y := fun _ _ => rfl
          rw [hsnd, sessionIdx_startQuestion]
          unfold sessionIdx
          rw [lookupSession_emit, lookupSession_setSession_ne _ g gid _ hgg]
          exact congrArg _ (lookupSession_sessions_eq _ st rfl gid)

/-- C5: the winner written and emitted at match completion is the participant
with the strictly greater final score, and a tie yields no winner: for a
session game with a second participant distinct from the first,
determineWinner (the computation endGame performs and emits) is participant 1
iff score1 > score2, participant 2 iff score2 > score1, and none iff the
scores are equal; endGame emits game-completed carrying exactly this
winner. -/
theorem c5_winner_by_strict_score (g : Game) (p2 : String)
    (h2 : g.player2Id = some p2) (hne : g.player1Id ≠ p2) :
    (determineWinner g = some g.player1Id ↔ g.player2Score < g.player1Score) ∧
    (determineWinner g = some p2 ↔ g.player1Score < g.player2Score) ∧
    (determineWinner g = none ↔ g.player1Score = g.player2Score) ∧
    (∀ st gid s, lookupSession st gid = some s →
      (endGame st gid).events = st.events ++
        [Event.gameCompleted gid s.game (determineWinner s.game)]) := by
  have hne2 : p2 ≠ g.player1Id := fun hc => hne hc.symm
  refine ⟨?_, ?_, ?_, fun st gid s h => endGame_events st gid s h⟩ <;>
    (unfold determineWinner; rw [h2]; split_ifs with ha hb) <;>
    simp_all <;> omega

theorem c5_winner_by_strict_score_witness :
    determineWinner { demoGame with player1Score := 30, player2Score := 10 } =
      some "alice" ∧
    determineWinner { demoGame with player1Score := 10, player2Score := 30 } =
      some "bob" ∧
    determineWinner { demoGame with player1Score := 20, player2Score := 20 } =
      none := by
  refine ⟨?_, ?_, ?_⟩
  · exact ((c5_winner_by_strict_score _ "bob" rfl (by decide)).1).mpr (by decide)
  · exact ((c5_winner_by_strict_score _ "bob" rfl
      (by decide)).2.1).mpr (by decide)
  · exact ((c5_winner_by_strict_score _ "bob" rfl
      (by decide)).2.2.1).mpr (by decide)

theorem length_getRandomQuestionsByTheme (db : List Question) (theme : String)
    (lim : Nat) :
    (getRandomQuestionsByTheme db theme lim).length =
      min lim ((db.filter (fun q => q.themeId == theme)).length) := by
  unfold getRandomQuestionsByTheme
  rw [List.length_take, (List.perm_insertionSort createdLater _).length_eq]

/-- C6: startGame loads exactly QUESTIONS_PER_GAME (5) questions for the
match's theme; if fewer exist it aborts before any write: it returns failure
with the state untouched (so the persisted status — Waiting — is unchanged
and no session enters the registry).  With at least 5 questions of the theme
in store (and a truthy theme and second participant), a session is created
holding exactly the 5 loaded questions. -/
theorem c6_startGame_requires_full_question_list (now : Int)
    (st : ManagerState) (gid : String) (g : Game) (theme : String)
    (hg : getGameById st.dbGames gid = some g) (ht : g.themeId = some theme) :
    ((getRandomQuestionsByTheme st.dbQuestions theme QUESTIONS_PER_GAME).length
        < QUESTIONS_PER_GAME → startGame now st gid = (false, st)) ∧
    (QUESTIONS_PER_GAME ≤
        (st.dbQuestions.filter (fun q => q.themeId == theme)).length →
      strTruthy g.themeId = true → strTruthy g.player2Id = true →
      ∃ s, lookupSession (startGame now st gid).2 gid = some s ∧
        s.questions = getRandomQuestionsByTheme st.dbQuestions theme
          QUESTIONS_PER_GAME ∧
        s.questions.length = QUESTIONS_PER_GAME) := by
  constructor
  · intro hlt
    simp only [startGame, hg]
    by_cases htr : (!strTruthy g.themeId || !strTruthy g.player2Id) = true
    · rw [if_pos htr]
    · rw [if_neg htr]
      simp only [ht]
      rw [if_pos hlt]
  · intro hlen htr1 htr2
    have hqlen : (getRandomQuestionsByTheme st.dbQuestions theme
        QUESTIONS_PER_GAME).length = QUESTIONS_PER_GAME := by
      rw [length_getRandomQuestionsByTheme]
      omega
    have hq0 : ¬ (getRandomQuestionsByTheme st.dbQuestions theme
        QUESTIONS_PER_GAME).length ≤ 0 := by
      rw [hqlen]; unfold QUESTIONS_PER_GAME; omega
    simp only [startGame, hg]
    rw [if_neg (by rw [htr1, htr2]; simp)]
    simp only [ht]
    rw [if_neg (by rw [hqlen]; omega)]
    simp only [startQuestion, lookupSession_emit, lookupSession_setSession_self]
    rw [if_neg hq0]
    rw [lookupSession_emit, lookupSession_setSession_self]
    exact ⟨_, rfl, rfl, hqlen⟩

theorem c6_startGame_requires_full_question_list_witness :
    startGame 0 fewQuestionsState "gf" = (false, fewQuestionsState) ∧
    ∃ s, lookupSession (startGame 0 enoughQuestionsState "gf").2 "gf" = some s ∧
      s.questions = getRandomQuestionsByTheme enoughQuestionsState.dbQuestions
        "science" QUESTIONS_PER_GAME ∧
      s.questions.length = QUESTIONS_PER_GAME := by
  constructor
  · exact (c6_startGame_requires_full_question_list 0 fewQuestionsState "gf"
      fewGame "history" (by decide) (by decide)).1 (by decide)
  · exact (c6_startGame_requires_full_question_list 0 enoughQuestionsState "gf"
      enoughGame "science" (by decide) (by decide)).2
      (by decide) (by decide) (by decide)

/-- C3: submitAnswer returns failure and leaves the entire state unchanged
(hence scores, answered-set, stored answers and question index) whenever the
session does not exist, the participant has already answered the current
question, or the selected index is outside [0,3]; and after one accepted
submission, a second submission by the same participant for the same question
returns failure and changes nothing. -/
theorem c3_submitAnswer_rejections (now now2 : Int) (st : ManagerState)
    (gid pid : String) (sel sel2 : Int) :
    (lookupSession st gid = none →
      submitAnswer now st gid pid sel = (false, st)) ∧
    (∀ s, lookupSession st gid = some s → pid ∈ s.playersAnswered →
      submitAnswer now st gid pid sel = (false, st)) ∧
    (isValidAnswerIndex sel = false →
      submitAnswer now st gid pid sel = (false, st)) ∧
    ((submitAnswer now st gid pid sel).1 = true →
      submitAnswer now2 (submitAnswer now st gid pid sel).2 gid pid sel2 =
        (false, (submitAnswer now st gid pid sel).2)) := by
  refine ⟨fun h => submitAnswer_noSession now st gid pid sel h, ?_, ?_, ?_⟩
  · intro s hs hm
    exact submitAnswer_guard now st gid pid sel s hs
      (by rw [show s.playersAnswered.contains pid = true from
        List.elem_iff.mpr hm]; rfl)
  · intro hv
    cases h : lookupSession st gid with
    | none => exact submitAnswer_noSession now st gid pid sel h
    | some s =>
      exact submitAnswer_guard now st gid pid sel s h (by rw [hv]; simp)
  · intro hsucc
    cases hres : lookupSession (submitAnswer now st gid pid sel).2 gid with
    | none => exact submitAnswer_noSession now2 _ gid pid sel2 hres
    | some s2 =>
      have hmem := submitAnswer_true_mem now st gid pid sel hsucc s2 hres
      exact submitAnswer_guard now2 _ gid pid sel2 s2 hres
        (by rw [show s2.playersAnswered.contains pid = true from
          List.elem_iff.mpr hmem]; rfl)

theorem c3_submitAnswer_rejections_witness :
    submitAnswer 100 demoState "nope" "alice" 1 = (false, demoState) ∧
    submitAnswer 100 demoStateAnswered "g1" "alice" 1 =
      (false, demoStateAnswered) ∧
    submitAnswer 100 demoState "g1" "alice" 7 = (false, demoState) ∧
    submitAnswer 200 (submitAnswer 100 demoState "g1" "alice" 1).2 "g1"
      "alice" 2 = (false, (submitAnswer 100 demoState "g1" "alice" 1).2) := by
  refine ⟨?_, ?_, ?_, ?_⟩
  · exact (c3_submitAnswer_rejections 100 0 demoState "nope" "alice" 1 1).1
      (by decide)
  · exact (c3_submitAnswer_rejections 100 0 demoStateAnswered "g1" "alice" 1
      1).2.1 demoSessionAnswered (by decide) (by decide)
  · exact (c3_submitAnswer_rejections 100 0 demoState "g1" "alice" 7 7).2.2.1
      (by decide)
  · exact (c3_submitAnswer_rejections 100 200 demoState "g1" "alice" 1
      2).2.2.2 (by decide)

theorem dbAnswer_after_accept (now : Int) (st : ManagerState)
    (gid pid : String) (sel : Int) (s : GameSession) (q : Question) :
    ∃ a ∈ (acceptState now st gid pid sel s q).dbAnswers,
      a.playerId = pid ∧ a.gameId = gid := by
  refine ⟨{
    id := "uuid", gameId := gid, playerId := pid, questionId := q.id,
    selectedAnswer := sel, isCorrect := sel == q.correctAnswer,
    responseTimeMs := now - s.currentQuestionStartTime }, ?_, rfl, rfl⟩
  rw [acceptState_dbAnswers]
  exact List.mem_cons_self _ _

theorem dbAnswer_after_accept_endQuestion (now : Int) (st : ManagerState)
    (gid pid : String) (sel : Int) (s : GameSession) (q : Question)
    (hq : s.questions.get? s.game.currentQuestionIndex = some q)
    (hlt : s.game.currentQuestionIndex + 1 < QUESTIONS_PER_GAME) :
    ∃ a ∈ (endQuestion (acceptState now st gid pid sel s q) gid).dbAnswers,
      a.playerId = pid ∧ a.gameId = gid := by
  rw [endQuestion_dbAnswers_incomplete _ gid (acceptSession now s pid sel q)
    q (lookupSession_acceptState_self now st gid pid sel s q)
    (by rw [acceptSession_questions, acceptSession_idx]; exact hq)
    (by rw [acceptSession_idx]; exact hlt)]
  exact dbAnswer_after_accept now st gid pid sel s q

theorem shape_after_accept (now : Int) (st : ManagerState) (gid pid : String)
    (sel : Int) (s : GameSession) (q : Question)
    (hp1 : pid ≠ s.game.player1Id) (hp2 : s.game.player2Id ≠ some pid)
    (s2 : GameSession)
    (hs2 : lookupSession (acceptState now st gid pid sel s q) gid = some s2) :
    pid ∈ s2.playersAnswered ∧
    s2.game.player1Score = s.game.player1Score ∧
    s2.game.player2Score = s.game.player2Score := by
  have hscores := acceptSession_nonparticipant now s pid sel q hp1 hp2
  rw [lookupSession_acceptState_self] at hs2
  obtain rfl := Option.some.inj hs2
  refine ⟨?_, hscores.1, hscores.2⟩
  rw [acceptSession_playersAnswered]
  exact List.mem_cons_self pid _

theorem shape_after_accept_endQuestion (now : Int) (st : ManagerState)
    (gid pid : String) (sel : Int) (s : GameSession) (q : Question)
    (hp1 : pid ≠ s.game.player1Id) (hp2 : s.game.player2Id ≠ some pid)
    (s2 : GameSession)
    (hs2 : lookupSession (endQuestion (acceptState now st gid pid sel s q)
      gid) gid = some s2) :
    pid ∈ s2.playersAnswered ∧
    s2.game.player1Score = s.game.player1Score ∧
    s2.game.player2Score = s.game.player2Score := by
  have hscores := acceptSession_nonparticipant now s pid sel q hp1 hp2
  rcases endQuestion_session _ gid _
      (lookupSession_acceptState_self now st gid pid sel s q) with
    hnone | ⟨s3, hs3, hans, hsc1, hsc2, _⟩
  · rw [hnone] at hs2
    exact Option.noConfusion hs2
  · rw [hs3] at hs2
    obtain rfl : s3 = s2 := Option.some.inj hs2
    refine ⟨?_, ?_, ?_⟩
    · rw [hans, acceptSession_playersAnswered]
      exact List.mem_cons_self pid _
    · rw [hsc1, hscores.1]
    · rw [hsc2, hscores.2]

/-- C9 (implicit): submitAnswer never checks that the submitting participant
belongs to the match.  For a live session, a submission from an id that is
neither participant 1 nor participant 2 — with a valid index, not already
answered — is accepted: it returns success, records and persists the answer,
adds the id to the answered-set (and, when one real participant had already
answered, thereby triggers the early endQuestion, advancing the question
index), while both participants' scores stay unchanged. -/
theorem c9_nonparticipant_accepted (now : Int) (st : ManagerState)
    (gid pid : String) (sel : Int) (s : GameSession) (q : Question)
    (h : lookupSession st gid = some s)
    (hnm : pid ∉ s.playersAnswered)
    (hv : isValidAnswerIndex sel = true)
    (hq : s.questions.get? s.game.currentQuestionIndex = some q)
    (hp1 : pid ≠ s.game.player1Id)
    (hp2 : s.game.player2Id ≠ some pid)
    (hlt : s.game.currentQuestionIndex + 1 < QUESTIONS_PER_GAME) :
    (submitAnswer now st gid pid sel).1 = true ∧
    (∃ a ∈ (submitAnswer now st gid pid sel).2.dbAnswers,
      a.playerId = pid ∧ a.gameId = gid) ∧
    (∀ s2, lookupSession (submitAnswer now st gid pid sel).2 gid = some s2 →
      pid ∈ s2.playersAnswered ∧
      s2.game.player1Score = s.game.player1Score ∧
      s2.game.player2Score = s.game.player2Score) ∧
    (s.game.player2Id.isSome = true → s.playersAnswered.length = 1 →
      sessionIdx (submitAnswer now st gid pid sel).2 gid =
        some (s.game.currentQuestionIndex + 1)) := by
  have hcont : s.playersAnswered.contains pid = false := by
    cases hcb : s.playersAnswered.contains pid with
    | false => rfl
    | true => exact absurd (List.elem_iff.mp hcb) hnm
  have hcond : (s.playersAnswered.contains pid || !isValidAnswerIndex sel)
      = false := by
    rw [hcont, hv]
    rfl
  have hacc := submitAnswer_accept_eq now st gid pid sel s q h hcond hq
  refine ⟨?_, ?_, ?_, ?_⟩
  · rw [hacc]
    split <;> split <;> rfl
  · rw [hacc]
    split <;> split <;>
      first
      | exact dbAnswer_after_accept_endQuestion now st gid pid sel s q hq hlt
      | exact dbAnswer_after_accept now st gid pid sel s q
  · intro s2 hs2
    rw [hacc] at hs2
    split at hs2 <;> split at hs2 <;>
      first
      | exact shape_after_accept_endQuestion now st gid pid sel s q hp1 hp2
          s2 hs2
      | exact shape_after_accept now st gid pid sel s q hp1 hp2 s2 hs2
  · intro hp2s hlen1
    have hcnt : (if (acceptSession now s pid sel q).game.player2Id.isSome
        = true then 2 else 1) ≤
        (acceptSession now s pid sel q).playersAnswered.length := by
      rw [acceptSession_player2Id, acceptSession_playersAnswered, hp2s,
        if_pos rfl, List.length_cons, hlen1]
    rw [hacc, if_pos hcnt]
    have hstep := endQuestion_idx_succ (acceptState now st gid pid sel s q)
      gid (acceptSession now s pid sel q) q
      (lookupSession_acceptState_self now st gid pid sel s q)
      (by rw [acceptSession_questions, acceptSession_idx]; exact hq)
      (by rw [acceptSession_idx]; exact hlt)
    rw [acceptSession_idx] at hstep
    exact hstep

theorem c9_nonparticipant_accepted_witness :
    (submitAnswer 500 demoStateAnswered "g1" "eve" 2).1 = true ∧
    sessionIdx (submitAnswer 500 demoStateAnswered "g1" "eve" 2).2 "g1" =
      some 1 := by
  have h := c9_nonparticipant_accepted 500 demoStateAnswered "g1" "eve" 2
    demoSessionAnswered
    { id := "q4", themeId := "science", correctAnswer := 1, createdAt := 4 }
    (by decide) (by decide) (by decide) (by decide) (by decide) (by decide)
    (by decide)
  exact ⟨h.1, h.2.2.2 (by decide) (by decide)⟩

/-- C8: for every match, the session's currentQuestionIndex is monotonically
non-decreasing across every manager operation (startGame — which creates a
session at most once per match —, startQuestion, submitAnswer, endQuestion,
syncGameState); an endQuestion that finds a live session and a current
question advances the index by exactly 1; and at the moment a match reaches
status Completed (the game-completed write/emission performed by endQuestion
via endGame) the index in the completed game equals QUESTIONS_PER_GAME (5)
exactly. -/
theorem c8_index_monotone_completes_at_n (op : Op) (st : ManagerState)
    (gid : String) (i : Nat) (hi : sessionIdx st gid = some i)
    (hsg : ∀ now g, op = Op.opStartGame now g → lookupSession st g = none) :
    (∀ j, sessionIdx (applyOp op st) gid = some j → i ≤ j) ∧
    (∀ s q, lookupSession st gid = some s →
      s.questions.get? s.game.currentQuestionIndex = some q →
      (s.game.currentQuestionIndex + 1 < QUESTIONS_PER_GAME →
        sessionIdx (endQuestion st gid) gid =
          some (s.game.currentQuestionIndex + 1)) ∧
      (QUESTIONS_PER_GAME ≤ s.game.currentQuestionIndex + 1 →
        s.game.currentQuestionIndex < QUESTIONS_PER_GAME →
        ∃ g2 w, (endQuestion st gid).events = st.events ++
          [Event.questionTimeout gid q.correctAnswer s.game.player1Score
            s.game.player2Score, Event.gameCompleted gid g2 w] ∧
          g2.currentQuestionIndex = QUESTIONS_PER_GAME)) := by
  constructor
  · intro j hj
    cases op with
    | opStartGame now g =>
      simp only [applyOp] at hj
      by_cases hgg : gid = g
      · subst hgg
        unfold sessionIdx at hi
        rw [hsg now gid rfl] at hi
        exact Option.noConfusion hi
      · rw [sessionIdx_startGame_ne now st g gid hgg, hi] at hj
        obtain rfl := Option.some.inj hj
        exact le_refl i
    | opStartQuestion now g qi =>
      simp only [applyOp] at hj
      rw [sessionIdx_startQuestion, hi] at hj
      obtain rfl := Option.some.inj hj
      exact le_refl i
    | opSubmitAnswer now g pid sel =>
      simp only [applyOp] at hj
      obtain ⟨i0, hi0, hle⟩ := sessionIdx_submitAnswer_le now st g pid sel
        gid j hj
      rw [hi] at hi0
      obtain rfl := Option.some.inj hi0
      exact hle
    | opEndQuestion g =>
      simp only [applyOp] at hj
      obtain ⟨i0, hi0, hle⟩ := sessionIdx_endQuestion_le st g gid j hj
      rw [hi] at hi0
      obtain rfl := Option.some.inj hi0
      exact hle
    | opSyncState now g =>
      simp only [applyOp] at hj
      rw [sessionIdx_syncGameState, hi] at hj
      obtain rfl := Option.some.inj hj
      exact le_refl i
  · intro s q hs hq
    constructor
    · exact fun hlt => endQuestion_idx_succ st gid s q hs hq hlt
    · intro hge hb
      obtain ⟨g2, w, hev, hg2⟩ := endQuestion_complete_events st gid s q hs
        hq hge
      refine ⟨g2, w, hev, ?_⟩
      rw [hg2]
      unfold QUESTIONS_PER_GAME at hge hb ⊢
      omega

theorem c8_index_monotone_completes_at_n_witness :
    (0 : Nat) ≤ 1 ∧
    sessionIdx (endQuestion demoState "g1") "g1" = some 1 := by
  have h := c8_index_monotone_completes_at_n (Op.opEndQuestion "g1")
    demoState "g1" 0 (by decide) (fun _ _ hop => Op.noConfusion hop)
  refine ⟨h.1 1 (by decide), ?_⟩
  exact (h.2 demoSession
    { id := "q4", themeId := "science", correctAnswer := 1, createdAt := 4 }
    (by decide) (by decide)).1 (by decide)

/-- C10 (implicit): the per-match question list is selected
deterministically, not randomly.  getRandomQuestionsByTheme is the query
`WHERE theme_id = ? ORDER BY created_at DESC LIMIT n`: a pure function of the
question store, returning only questions of the theme, in non-increasing
creation order, of length min n (number of theme questions), and dominating
every theme question left out (so, up to equal timestamps, the n most
recently created ones); two matches drawing from equal stores for the same
theme therefore receive the identical ordered question list. -/
theorem c10_question_selection_deterministic (store : List Question)
    (themeId : String) (n : Nat) :
    (∀ q ∈ getRandomQuestionsByTheme store themeId n, q.themeId = themeId) ∧
    List.Sorted createdLater (getRandomQuestionsByTheme store themeId n) ∧
    (getRandomQuestionsByTheme store themeId n).length =
      min n ((store.filter (fun q => q.themeId == themeId)).length) ∧
    (∀ q ∈ getRandomQuestionsByTheme store themeId n,
      ∀ q2 ∈ store.filter (fun q => q.themeId == themeId),
        q2 ∉ getRandomQuestionsByTheme store themeId n →
          q2.createdAt ≤ q.createdAt) ∧
    (∀ store2, store2 = store →
      getRandomQuestionsByTheme store2 themeId n =
        getRandomQuestionsByTheme store themeId n) := by
  refine ⟨?_, ?_, length_getRandomQuestionsByTheme store themeId n, ?_,
    fun store2 h2 => by rw [h2]⟩
  · intro q hq
    have h1 : q ∈ (store.filter (fun q => q.themeId == themeId)).insertionSort
        createdLater := List.mem_of_mem_take hq
    have h2 : q ∈ store.filter (fun q => q.themeId == themeId) :=
      ((List.perm_insertionSort createdLater _).mem_iff).mp h1
    have h3 := (List.mem_filter.mp h2).2
    exact beq_iff_eq.mp h3
  · exact List.Pairwise.sublist (List.take_sublist n _)
      (List.sorted_insertionSort createdLater _)
  · intro q hq q2 hq2 hnot
    have hsorted : List.Pairwise createdLater
        ((store.filter (fun q => q.themeId == themeId)).insertionSort
          createdLater) :=
      List.sorted_insertionSort createdLater _
    have hq2mem : q2 ∈ (store.filter
        (fun q => q.themeId == themeId)).insertionSort createdLater :=
      ((List.perm_insertionSort createdLater _).mem_iff).mpr hq2
    rw [← List.take_append_drop n ((store.filter
      (fun q => q.themeId == themeId)).insertionSort createdLater)]
      at hsorted hq2mem
    have hq2drop : q2 ∈ ((store.filter
        (fun q => q.themeId == themeId)).insertionSort createdLater).drop n := by
      rcases List.mem_append.mp hq2mem with hin | hin
      · exact absurd hin hnot
      · exact hin
    exact (List.pairwise_append.mp hsorted).2.2 q hq q2 hq2drop

theorem c10_question_selection_deterministic_witness :
    ({ id := "q1", themeId := "science", correctAnswer := 3,
       createdAt := 1 } : Question).themeId = "science" ∧
    ({ id := "q0", themeId := "science", correctAnswer := 1,
       createdAt := 0 } : Question).createdAt ≤
      ({ id := "q1", themeId := "science", correctAnswer := 3,
         createdAt := 1 } : Question).createdAt := by
  constructor
  · exact (c10_question_selection_deterministic bigStore "science" 5).1 _
      (by decide)
  · exact (c10_question_selection_deterministic bigStore "science"
      5).2.2.2.1 _ (by decide) _ (by decide) (by decide)

end QuizBattle
